import Mathlib

/-! Verification of the booking/review validation core of the
`alx_travel_app` repository (files `listings/models.py` and
`listings/serializers.py`), as a shallow embedding in Lean.

Conventions of the embedding:
- Dates (Django `DateField`) are day numbers of type `Int`; the Python
  expression `(d2 - d1).days` becomes `d2 - d1`.
- `DecimalField(max_digits=10, decimal_places=2)` amounts are integers
  counted in cents, so the exact decimal arithmetic of Python `Decimal`
  values is exact integer arithmetic here.
- Database tables are explicit lists; `Listing.objects.get(listing_id=..)`
  is `List.find?`, and a `filter(...).exists()` query is `List.any`.
- `serializers.ValidationError` raised with a given message becomes an
  `Except.error` carrying the corresponding error kind of the spec's
  error taxonomy (section 7 of the spec).
- Absent keys of the incoming `data` dict are `Option.none`; Python
  truthiness of an integer field (`if number_of_guests and ...`,
  `if rating and ...`) is modelled as the value being nonzero.
- Foreign keys (`host`, `guest`, `reviewer`, `listing`, `booking`) are the
  referenced row's primary key, with `Nat` standing in for UUID keys.
-/

namespace AlxTravel

/-- Status choices of `Booking.STATUS_CHOICES` in `listings/models.py`. -/
inductive BookingStatus where
  | pending
  | confirmed
  | cancelled
  | completed
deriving DecidableEq, Repr

/-- A row of the `Listing` model (`listings/models.py`).  `price_per_night`
is in cents. -/
structure Listing where
  listing_id : Nat
  price_per_night : Int
  number_of_bedrooms : Nat
  number_of_bathrooms : Nat
  max_guests : Nat
  host : Nat
  is_available : Bool
deriving DecidableEq, Repr

/-- A row of the `Booking` model (`listings/models.py`).  `listing` and
`guest` are foreign keys; dates are day numbers; `total_price` is in
cents. -/
structure Booking where
  booking_id : Nat
  listing : Nat
  guest : Nat
  check_in_date : Int
  check_out_date : Int
  number_of_guests : Nat
  total_price : Int
  status : BookingStatus
deriving DecidableEq, Repr

/-- A row of the `Review` model (`listings/models.py`). -/
structure Review where
  review_id : Nat
  listing : Nat
  reviewer : Nat
  booking : Option Nat
  rating : Int
deriving DecidableEq, Repr

/-- Error kinds of the spec's taxonomy raised by
`BookingSerializer.validate` (each corresponds to one
`serializers.ValidationError` message in `listings/serializers.py`). -/
inductive BookingError where
  | invalidDateRange
  | pastCheckInDate
  | listingNotFound
  | listingUnavailable
  | guestCapacityExceeded
  | dateRangeConflict
deriving DecidableEq, Repr

/-- Error kinds raised by `ReviewSerializer.validate` in
`listings/serializers.py`.  Note that the source method raises no
duplicate-review error, so no such kind exists here. -/
inductive ReviewError where
  | invalidRating
  | listingNotFound
  | bookingNotFound
  | notBookingOwner
  | bookingNotCompleted
deriving DecidableEq, Repr

/-- The `data` dict as read by `BookingSerializer.validate` via
`data.get(...)`: every key may be absent. -/
structure BookingData where
  check_in_date : Option Int
  check_out_date : Option Int
  listing_id : Option Nat
  number_of_guests : Option Nat
deriving DecidableEq, Repr

/-- The `data` dict as read by `ReviewSerializer.validate`. -/
structure ReviewData where
  listing_id : Option Nat
  booking_id : Option Nat
  rating : Option Int
deriving DecidableEq, Repr

/-- A raw client payload for booking creation.  `total_price` and
`status` are fields a client may attempt to supply; both are listed in
`BookingSerializer.Meta.read_only_fields` and therefore never reach
`validated_data`, which `BookingSerializer.create` models by never
reading them. -/
structure RawBookingInput where
  listing_id : Nat
  check_in_date : Int
  check_out_date : Int
  number_of_guests : Nat
  special_requests : Option String
  total_price : Option Int
  status : Option BookingStatus
deriving DecidableEq, Repr

/-- `Listing.objects.get(listing_id=listing_id)` over an explicit table. -/
def findListing (listings : List Listing) (lid : Nat) : Option Listing :=
  listings.find? fun l => l.listing_id == lid

/-- `Booking.objects.get(booking_id=booking_id)` over an explicit table. -/
def findBooking (bookings : List Booking) (bid : Nat) : Option Booking :=
  bookings.find? fun b => b.booking_id == bid

/-- The row predicate of the overlap query in `BookingSerializer.validate`
(serializers.py lines 130-135): `listing=listing`,
`status__in=['confirmed', 'pending']`, `check_in_date__lt=check_out_date`,
`check_out_date__gt=check_in_date`. -/
def conflictsWith (b : Booking) (lid : Nat) (ci co : Int) : Bool :=
  decide (b.listing = lid)
    && (decide (b.status = BookingStatus.confirmed)
        || decide (b.status = BookingStatus.pending))
    && decide (b.check_in_date < co)
    && decide (b.check_out_date > ci)

/-- The `.exclude(booking_id=self.instance.booking_id)` filter applied when
updating (serializers.py lines 138-139); `inst` is the primary key of
`self.instance` when present. -/
def excludeCurrent (inst : Option Nat) (b : Booking) : Bool :=
  match inst with
  | some bid => decide (b.booking_id ≠ bid)
  | none => true

/-- `overlapping_bookings.exists()` for the query of serializers.py lines
129-142; the query only runs when both dates are present. -/
def hasConflict (bookings : List Booking) (lid : Nat)
    (ci? co? : Option Int) (inst : Option Nat) : Bool :=
  match ci?, co? with
  | some ci, some co =>
    bookings.any fun b => conflictsWith b lid ci co && excludeCurrent inst b
  | _, _ => false

/-- The date checks of serializers.py lines 107-112, run only when both
dates are present: check-out after check-in, then check-in not in the
past (`date.today()` is the `today` parameter). -/
def dateError (ci? co? : Option Int) (today : Int) : Option BookingError :=
  match ci?, co? with
  | some ci, some co =>
    if co ≤ ci then some BookingError.invalidDateRange
    else if ci < today then some BookingError.pastCheckInDate
    else none
  | _, _ => none

/-- The guard of serializers.py line 123:
`if number_of_guests and number_of_guests > listing.max_guests` — note the
Python truthiness conjunct, which skips the check when the value is 0. -/
def guestsExceed (g? : Option Nat) (maxGuests : Nat) : Bool :=
  match g? with
  | some g => decide (g ≠ 0) && decide (maxGuests < g)
  | none => false

/-- `BookingSerializer.validate` (serializers.py lines 96-147).  The
database tables, today's date and the primary key of `self.instance` (for
updates) are explicit parameters.  On success it returns the resolved
listing that the method stores into `data['listing']` (`none` when no
`listing_id` was supplied). -/
def BookingSerializer.validate (listings : List Listing)
    (bookings : List Booking) (today : Int) (inst : Option Nat)
    (data : BookingData) : Except BookingError (Option Listing) :=
  match dateError data.check_in_date data.check_out_date today with
  | some e => Except.error e
  | none =>
    match data.listing_id with
    | none => Except.ok none
    | some lid =>
      match findListing listings lid with
      | none => Except.error BookingError.listingNotFound
      | some listing =>
        if listing.is_available = false then
          Except.error BookingError.listingUnavailable
        else if guestsExceed data.number_of_guests listing.max_guests then
          Except.error BookingError.guestCapacityExceeded
        else if hasConflict bookings lid data.check_in_date
            data.check_out_date inst then
          Except.error BookingError.dateRangeConflict
        else Except.ok (some listing)

/-- `(check_out_date - check_in_date).days` of serializers.py line 159. -/
def nights (check_in_date check_out_date : Int) : Int :=
  check_out_date - check_in_date

/-- `BookingSerializer.create` (serializers.py lines 149-162): the guest is
the request user, `total_price` is computed server-side, and `status` is
absent from `validated_data` (it is read-only) so the model default
`pending` of models.py line 111 applies.  The read-only fields
`raw.total_price` and `raw.status` are never read. -/
def BookingSerializer.create (guest booking_id : Nat) (listing : Listing)
    (raw : RawBookingInput) : Booking :=
  { booking_id := booking_id
    listing := listing.listing_id
    guest := guest
    check_in_date := raw.check_in_date
    check_out_date := raw.check_out_date
    number_of_guests := raw.number_of_guests
    total_price := listing.price_per_night
      * nights raw.check_in_date raw.check_out_date
    status := BookingStatus.pending }

/-- The guard of serializers.py line 188:
`if rating and (rating < 1 or rating > 5)` — Python truthiness skips the
check when the rating is 0. -/
def ratingInvalid (r? : Option Int) : Bool :=
  match r? with
  | some r => decide (r ≠ 0) && (decide (r < 1) || decide (r > 5))
  | none => false

/-- The booking-related part of `ReviewSerializer.validate`
(serializers.py lines 200-214): it runs only when a `booking_id` is
supplied; ownership and completion are checked only when the context
holds a request with a user (`requestUser`). -/
def reviewBookingCheck (bookings : List Booking) (requestUser : Option Nat)
    (bid? : Option Nat) : Except ReviewError Unit :=
  match bid? with
  | none => Except.ok ()
  | some bid =>
    match findBooking bookings bid with
    | none => Except.error ReviewError.bookingNotFound
    | some booking =>
      match requestUser with
      | none => Except.ok ()
      | some u =>
        if booking.guest ≠ u then Except.error ReviewError.notBookingOwner
        else if booking.status ≠ BookingStatus.completed then
          Except.error ReviewError.bookingNotCompleted
        else Except.ok ()

/-- `ReviewSerializer.validate` (serializers.py lines 181-216): rating
guard, listing lookup, then the booking checks.  The method performs no
duplicate-review query; `data['listing'] = listing` does not affect the
accept/reject outcome and is dropped here. -/
def ReviewSerializer.validate (listings : List Listing)
    (bookings : List Booking) (requestUser : Option Nat)
    (data : ReviewData) : Except ReviewError Unit :=
  if ratingInvalid data.rating then Except.error ReviewError.invalidRating
  else
    match data.listing_id with
    | none => reviewBookingCheck bookings requestUser data.booking_id
    | some lid =>
      match findListing listings lid with
      | none => Except.error ReviewError.listingNotFound
      | some _ => reviewBookingCheck bookings requestUser data.booking_id

/-- The storage-level constraint `unique_together = ['listing', 'reviewer']`
of `Review.Meta` (models.py lines 195-200): inserting `r` violates it
exactly when the table already holds a row with the same listing and
reviewer. -/
def violatesUniqueTogether (reviews : List Review) (r : Review) : Bool :=
  reviews.any fun r0 =>
    decide (r0.listing = r.listing) && decide (r0.reviewer = r.reviewer)

/-- Active status in the sense of the spec's glossary: pending or
confirmed (the statuses the overlap query counts). -/
def isActive (b : Booking) : Bool :=
  decide (b.status = BookingStatus.pending)
    || decide (b.status = BookingStatus.confirmed)

/-- Half-open date-range overlap of two bookings, as in the spec:
`b1.check_in < b2.check_out AND b1.check_out > b2.check_in`. -/
def overlaps (b1 b2 : Booking) : Prop :=
  b1.check_in_date < b2.check_out_date ∧ b1.check_out_date > b2.check_in_date

/-- The C1 invariant: no two distinct active bookings of the same listing
overlap. -/
def NoOverlappingActive (db : List Booking) : Prop :=
  ∀ b1 ∈ db, ∀ b2 ∈ db, b1.booking_id ≠ b2.booking_id →
    b1.listing = b2.listing → isActive b1 = true → isActive b2 = true →
    ¬ overlaps b1 b2

/-- Primary keys of the booking table are pairwise distinct (the store
generates a fresh UUID primary key per row). -/
def IdsDistinct (db : List Booking) : Prop :=
  List.Pairwise (fun b1 b2 => b1.booking_id ≠ b2.booking_id) db

/-- Replace the date range of the booking whose primary key is `bid`
(the write performed by a date-range update). -/
def patchDates (bid : Nat) (ci co : Int) (b : Booking) : Booking :=
  if b.booking_id = bid then
    { b with check_in_date := ci, check_out_date := co }
  else b

/-- The booking table after a date-range update of booking `bid`. -/
def setDates (db : List Booking) (bid : Nat) (ci co : Int) : List Booking :=
  db.map (patchDates bid ci co)

/-- Modelled from the spec: the operation surface of section 6
(`create_booking`, `update_booking_dates`) — the HTTP view layer that
drives the serializers is not part of the sources, so which operations
occur, and that an update supplies both dates for the booking's own
listing, follows the spec's call contracts.  Each operation itself is the
source-embedded serializer: a create appends the row built by
`BookingSerializer.create` after `BookingSerializer.validate` accepted
the payload (with a fresh primary key), and a date update rewrites the
dates of an existing row after `BookingSerializer.validate` accepted the
new range with the row itself excluded (`inst` is its primary key). -/
inductive Reachable (listings : List Listing) : List Booking → Prop where
  | init : Reachable listings []
  | create (db : List Booking) (today ci co : Int) (lid g guest bid : Nat)
      (l : Listing) (hr : Reachable listings db)
      (hfresh : ∀ b ∈ db, b.booking_id ≠ bid)
      (hv : BookingSerializer.validate listings db today none
          { check_in_date := some ci, check_out_date := some co,
            listing_id := some lid, number_of_guests := some g } =
          Except.ok (some l)) :
      Reachable listings
        (BookingSerializer.create guest bid l
          { listing_id := lid, check_in_date := ci, check_out_date := co,
            number_of_guests := g, special_requests := none,
            total_price := none, status := none } :: db)
  | updateDates (db : List Booking) (today ci co : Int) (x : Booking)
      (g : Nat) (res : Option Listing)
      (hr : Reachable listings db) (hx : x ∈ db)
      (hv : BookingSerializer.validate listings db today
          (some x.booking_id)
          { check_in_date := some ci, check_out_date := some co,
            listing_id := some x.listing, number_of_guests := some g } =
          Except.ok res) :
      Reachable listings (setDates db x.booking_id ci co)

/-- The five checks of spec section 4.2 in order, with each check's
failure predicate taken from the code; the head of this list is the
earliest failing check. -/
def checkFailures (l : Listing) (ci co today : Int) (g : Nat)
    (conflict : Bool) : List BookingError :=
  (if co ≤ ci then [BookingError.invalidDateRange] else []) ++
  (if ci < today then [BookingError.pastCheckInDate] else []) ++
  (if l.is_available = false then [BookingError.listingUnavailable] else []) ++
  (if guestsExceed (some g) l.max_guests then
    [BookingError.guestCapacityExceeded] else []) ++
  (if conflict then [BookingError.dateRangeConflict] else [])

/-- A concrete listing used by the closed witnesses: $100.00 per night,
capacity 4, available. -/
def sampleListing : Listing :=
  { listing_id := 1, price_per_night := 10000, number_of_bedrooms := 2,
    number_of_bathrooms := 1, max_guests := 4, host := 3,
    is_available := true }

/-- Unfolding of `BookingSerializer.validate` on a payload supplying every
field, as one prioritized cascade of checks. -/
theorem validate_full_eq (listings : List Listing) (db : List Booking)
    (today : Int) (inst : Option Nat) (ci co : Int) (lid g : Nat) :
    BookingSerializer.validate listings db today inst
      { check_in_date := some ci, check_out_date := some co,
        listing_id := some lid, number_of_guests := some g } =
      (if co ≤ ci then Except.error BookingError.invalidDateRange
      else if ci < today then Except.error BookingError.pastCheckInDate
      else
        match findListing listings lid with
        | none => Except.error BookingError.listingNotFound
        | some listing =>
          if listing.is_available = false then
            Except.error BookingError.listingUnavailable
          else if guestsExceed (some g) listing.max_guests then
            Except.error BookingError.guestCapacityExceeded
          else if hasConflict db lid (some ci) (some co) inst then
            Except.error BookingError.dateRangeConflict
          else Except.ok (some listing)) := by
  unfold BookingSerializer.validate dateError
  by_cases h1 : co ≤ ci <;> by_cases h2 : ci < today <;> simp [h1, h2]

/-- Membership form of a refuted conflict query: if the overlap query of
`BookingSerializer.validate` is empty, no non-excluded active booking of
the listing overlaps the proposed range. -/
theorem hasConflict_false_elim (db : List Booking) (lid : Nat)
    (ci co : Int) (inst : Option Nat)
    (h : hasConflict db lid (some ci) (some co) inst = false)
    (b : Booking) (hb : b ∈ db) (hexc : excludeCurrent inst b = true)
    (hl : b.listing = lid) (ha : isActive b = true) :
    ¬ (b.check_in_date < co ∧ b.check_out_date > ci) := by
  intro hov
  have hany : (db.any fun x =>
      conflictsWith x lid ci co && excludeCurrent inst x) = false := by
    simpa [hasConflict] using h
  rw [List.any_eq_false] at hany
  have hc : conflictsWith b lid ci co = true := by
    have ha2 : b.status = BookingStatus.confirmed ∨
        b.status = BookingStatus.pending := by
      simpa [isActive, or_comm] using ha
    simp [conflictsWith, hl, hov.1, hov.2]
    rcases ha2 with h2 | h2 <;> simp [h2]
  exact hany b hb (by simp [hc, hexc])

/-- What an accepting run of `BookingSerializer.validate` on a full
payload guarantees: a valid future-proof range is not needed here, but the
resolved listing carries the requested key and the overlap query was
empty. -/
theorem validate_ok_elim (listings : List Listing) (db : List Booking)
    (today : Int) (inst : Option Nat) (ci co : Int) (lid g : Nat)
    (res : Option Listing)
    (h : BookingSerializer.validate listings db today inst
        { check_in_date := some ci, check_out_date := some co,
          listing_id := some lid, number_of_guests := some g } =
        Except.ok res) :
    ci < co ∧ ∃ l, res = some l ∧ l.listing_id = lid ∧
      hasConflict db lid (some ci) (some co) inst = false := by
  rw [validate_full_eq] at h
  by_cases h1 : co ≤ ci
  · simp [h1] at h
  · by_cases h2 : ci < today
    · simp [h1, h2] at h
    · simp only [h1, h2, if_false] at h
      cases hf : findListing listings lid with
      | none => rw [hf] at h; exact absurd h (by simp)
      | some l =>
        rw [hf] at h
        by_cases h3 : l.is_available = false
        · simp [h3] at h
        · by_cases h4 : guestsExceed (some g) l.max_guests = true
          · simp [h3, h4] at h
          · by_cases h5 : hasConflict db lid (some ci) (some co) inst = true
            · simp [h3, h4, h5] at h
            · simp only [h3, h4, h5, if_false, if_neg] at h
              refine ⟨lt_of_not_le h1, l, ?_, ?_, ?_⟩
              · simpa using h.symm
              · have hf2 : List.find? (fun x => x.listing_id == lid)
                    listings = some l := by simpa [findListing] using hf
                have := List.find?_some hf2
                simpa using this
              · exact Bool.eq_false_iff.mpr h5

/-- In a table with pairwise-distinct primary keys, a key determines the
row. -/
theorem eq_of_booking_id_eq (db : List Booking) (hd : IdsDistinct db)
    (a b : Booking) (ha : a ∈ db) (hb : b ∈ db)
    (hid : a.booking_id = b.booking_id) : a = b := by
  induction db with
  | nil => cases ha
  | cons y ys ih =>
    rw [IdsDistinct, List.pairwise_cons] at hd
    rcases List.mem_cons.mp ha with ha1 | ha2 <;>
      rcases List.mem_cons.mp hb with hb1 | hb2
    · exact ha1.trans hb1.symm
    · subst ha1; exact absurd hid (hd.1 b hb2)
    · subst hb1; exact absurd hid.symm (hd.1 a ha2)
    · exact ih hd.2 ha2 hb2

/-- `patchDates` never changes the primary key. -/
theorem patchDates_booking_id (bid : Nat) (ci co : Int) (b : Booking) :
    (patchDates bid ci co b).booking_id = b.booking_id := by
  unfold patchDates; split <;> rfl

/-- `patchDates` never changes the listing. -/
theorem patchDates_listing (bid : Nat) (ci co : Int) (b : Booking) :
    (patchDates bid ci co b).listing = b.listing := by
  unfold patchDates; split <;> rfl

/-- `patchDates` never changes the status. -/
theorem patchDates_status (bid : Nat) (ci co : Int) (b : Booking) :
    (patchDates bid ci co b).status = b.status := by
  unfold patchDates; split <;> rfl

/-- `patchDates` of a row with a different key is the identity. -/
theorem patchDates_ne (bid : Nat) (ci co : Int) (b : Booking)
    (h : b.booking_id ≠ bid) : patchDates bid ci co b = b := by
  unfold patchDates; simp [h]

/-- `patchDates` of the targeted row rewrites exactly the two dates. -/
theorem patchDates_eq (bid : Nat) (ci co : Int) (b : Booking)
    (h : b.booking_id = bid) :
    patchDates bid ci co b =
      { b with check_in_date := ci, check_out_date := co } := by
  unfold patchDates; simp [h]

/-- Both state invariants — distinct primary keys and no overlap among
active bookings of a listing — hold in every reachable booking table. -/
theorem reachable_inv (listings : List Listing) (db : List Booking)
    (h : Reachable listings db) : IdsDistinct db ∧ NoOverlappingActive db := by
  induction h with
  | init =>
    refine ⟨List.Pairwise.nil, ?_⟩
    intro b1 h1
    exact absurd h1 (List.not_mem_nil b1)
  | create db today ci co lid g guest bid l hr hfresh hv ih =>
    obtain ⟨ihd, ihn⟩ := ih
    obtain ⟨hcico, l2, hres, hlid, hconf⟩ :=
      validate_ok_elim listings db today none ci co lid g (some l) hv
    have hl2 : l2 = l := by injection hres with he; exact he.symm
    subst hl2
    constructor
    · rw [IdsDistinct, List.pairwise_cons]
      exact ⟨fun b hb he => hfresh b hb he.symm, ihd⟩
    · intro b1 h1 b2 h2 hid hlst ha1 ha2 hov
      rcases List.mem_cons.mp h1 with rfl | h1m <;>
        rcases List.mem_cons.mp h2 with rfl | h2m
      · exact hid rfl
      · have hb2l : b2.listing = lid := by rw [← hlst]; exact hlid
        exact hasConflict_false_elim db lid ci co none hconf b2 h2m rfl
          hb2l ha2 ⟨hov.2, hov.1⟩
      · have hb1l : b1.listing = lid := by rw [hlst]; exact hlid
        exact hasConflict_false_elim db lid ci co none hconf b1 h1m rfl
          hb1l ha1 ⟨hov.1, hov.2⟩
      · exact ihn b1 h1m b2 h2m hid hlst ha1 ha2 hov
  | updateDates db today ci co x g res hr hx hv ih =>
    obtain ⟨ihd, ihn⟩ := ih
    obtain ⟨hcico, l2, hres, hlid, hconf⟩ :=
      validate_ok_elim listings db today (some x.booking_id) ci co
        x.listing g res hv
    constructor
    · rw [IdsDistinct]
      unfold setDates
      exact List.Pairwise.map (patchDates x.booking_id ci co)
        (fun a b hab => by
          simp only [patchDates_booking_id]; exact hab) ihd
    · intro b1 h1 b2 h2 hid hlst ha1 ha2 hov
      unfold setDates at h1 h2
      obtain ⟨a1, ha1m, rfl⟩ := List.mem_map.mp h1
      obtain ⟨a2, ha2m, rfl⟩ := List.mem_map.mp h2
      by_cases e1 : a1.booking_id = x.booking_id <;>
        by_cases e2 : a2.booking_id = x.booking_id
      · exact hid (by rw [patchDates_booking_id, patchDates_booking_id, e1, e2])
      · have hax : a1 = x := eq_of_booking_id_eq db ihd a1 x ha1m hx e1
        rw [patchDates_eq x.booking_id ci co a1 e1] at hov hlst
        rw [patchDates_ne x.booking_id ci co a2 e2] at hov hlst ha2
        obtain ⟨hov1, hov2⟩ := hov
        simp only at hov1 hov2 hlst
        have hl2a : a2.listing = x.listing := by rw [← hlst, hax]
        exact hasConflict_false_elim db x.listing ci co
          (some x.booking_id) hconf a2 ha2m
          (by simp [excludeCurrent, e2]) hl2a ha2 ⟨hov2, hov1⟩
      · have hax : a2 = x := eq_of_booking_id_eq db ihd a2 x ha2m hx e2
        rw [patchDates_eq x.booking_id ci co a2 e2] at hov hlst
        rw [patchDates_ne x.booking_id ci co a1 e1] at hov hlst ha1
        obtain ⟨hov1, hov2⟩ := hov
        simp only at hov1 hov2 hlst
        have hl1a : a1.listing = x.listing := by rw [hlst, hax]
        exact hasConflict_false_elim db x.listing ci co
          (some x.booking_id) hconf a1 ha1m
          (by simp [excludeCurrent, e1]) hl1a ha1 ⟨hov1, hov2⟩
      · rw [patchDates_ne x.booking_id ci co a1 e1] at hov hlst ha1 hid
        rw [patchDates_ne x.booking_id ci co a2 e2] at hov hlst ha2 hid
        exact ihn a1 ha1m a2 ha2m hid hlst ha1 ha2 hov

/-- C1: for every pair of bookings on the same listing that both have
active status (pending or confirmed) and were both accepted by booking
validation, their date ranges do not overlap under half-open semantics;
this holds as an invariant of every booking table reachable by validated
create/update operations. -/
theorem no_overlapping_active_invariant (listings : List Listing)
    (db : List Booking) (h : Reachable listings db) :
    NoOverlappingActive db :=
  (reachable_inv listings db h).2

/-- C1 witness: a table reached by two validated creates of adjacent
ranges on the sample listing satisfies the invariant. -/
theorem no_overlapping_active_invariant_witness :
    NoOverlappingActive
      [BookingSerializer.create 7 2 sampleListing
        { listing_id := 1, check_in_date := 10, check_out_date := 20,
          number_of_guests := 3, special_requests := none,
          total_price := none, status := none },
       BookingSerializer.create 5 1 sampleListing
        { listing_id := 1, check_in_date := 0, check_out_date := 10,
          number_of_guests := 2, special_requests := none,
          total_price := none, status := none }] :=
  no_overlapping_active_invariant [sampleListing] _
    (Reachable.create _ 0 10 20 1 3 7 2 sampleListing
      (Reachable.create _ 0 0 10 1 2 5 1 sampleListing Reachable.init
        (by intro b hb; exact absurd hb (List.not_mem_nil b)) (by rfl))
      (by decide) (by rfl))

/-- C2: a stored booking on the queried listing is reported as a conflict
with a proposed range exactly when its status is pending or confirmed and
the half-open ranges intersect; in particular a booking whose check-out
equals the proposed check-in never conflicts, and cancelled or completed
bookings never conflict. -/
theorem conflict_check_characterization (b : Booking) (lid : Nat)
    (ci co : Int) (h : b.listing = lid) :
    (conflictsWith b lid ci co = true ↔
      ((b.status = BookingStatus.pending ∨
          b.status = BookingStatus.confirmed) ∧
        b.check_in_date < co ∧ b.check_out_date > ci))
    ∧ (b.check_out_date = ci → conflictsWith b lid ci co = false)
    ∧ ((b.status = BookingStatus.cancelled ∨
        b.status = BookingStatus.completed) →
        conflictsWith b lid ci co = false) := by
  refine ⟨?_, ?_, ?_⟩
  · simp only [conflictsWith, Bool.and_eq_true, Bool.or_eq_true,
      decide_eq_true_eq, h]
    tauto
  · intro hco
    simp [conflictsWith, hco]
  · intro hst
    rcases hst with hst | hst <;> simp [conflictsWith, hst]

/-- C2 witness: a pending booking on listing 1 over days [0, 10)
conflicts with the proposed range [5, 7). -/
theorem conflict_check_characterization_witness :
    conflictsWith
      { booking_id := 1, listing := 1, guest := 5, check_in_date := 0,
        check_out_date := 10, number_of_guests := 2, total_price := 100000,
        status := BookingStatus.pending } 1 5 7 = true :=
  (conflict_check_characterization
    { booking_id := 1, listing := 1, guest := 5, check_in_date := 0,
      check_out_date := 10, number_of_guests := 2, total_price := 100000,
      status := BookingStatus.pending } 1 5 7 rfl).1.mpr
    ⟨Or.inl rfl, by decide, by decide⟩

/-- C5: for every accepted booking with check-in before check-out, the
computed total price is exactly the nightly rate times the integer day
difference, in exact (integer-cents) arithmetic. -/
theorem total_price_exact (guest bid : Nat) (l : Listing)
    (raw : RawBookingInput)
    (h : raw.check_in_date < raw.check_out_date) :
    (BookingSerializer.create guest bid l raw).total_price =
      l.price_per_night * (raw.check_out_date - raw.check_in_date) := rfl

/-- C5 witness: nightly rate 10000 cents ($100.00), check-in day 0
(2024-01-01), check-out day 3 (2024-01-04): total is exactly
30000 cents ($300.00). -/
theorem total_price_exact_witness :
    (BookingSerializer.create 1 9 sampleListing
      { listing_id := 1, check_in_date := 0, check_out_date := 3,
        number_of_guests := 2, special_requests := none,
        total_price := none, status := none }).total_price = 30000 :=
  (total_price_exact 1 9 sampleListing
    { listing_id := 1, check_in_date := 0, check_out_date := 3,
      number_of_guests := 2, special_requests := none,
      total_price := none, status := none } (by decide)).trans (by decide)

/-- C10: every booking created through the booking serializer has status
pending and a server-computed total price equal to the nightly rate times
the number of nights, and any client-supplied values for the read-only
fields `status` and `total_price` are ignored: creation from a payload
differing only in those fields yields the same booking. -/
theorem create_readonly_defaults (guest bid : Nat) (l : Listing)
    (raw : RawBookingInput) (s : Option BookingStatus) (p : Option Int) :
    (BookingSerializer.create guest bid l raw).status =
      BookingStatus.pending ∧
    (BookingSerializer.create guest bid l raw).total_price =
      l.price_per_night * nights raw.check_in_date raw.check_out_date ∧
    BookingSerializer.create guest bid l
        { raw with status := s, total_price := p } =
      BookingSerializer.create guest bid l raw :=
  ⟨rfl, rfl, rfl⟩

/-- C3: on a full payload whose listing exists, booking validation returns
the error of the earliest failing check in the fixed order
invalid-date-range, past-check-in, listing-unavailable,
guest-capacity, date-conflict (the head of the failing-check list), and
succeeds when no check fails; in particular a zero-night stay
(check-in equal to check-out) is always rejected with the
invalid-date-range error. -/
theorem validate_error_order (listings : List Listing) (db : List Booking)
    (today : Int) (inst : Option Nat) (ci co : Int) (lid g : Nat)
    (l : Listing) (hfind : findListing listings lid = some l) :
    (BookingSerializer.validate listings db today inst
        { check_in_date := some ci, check_out_date := some co,
          listing_id := some lid, number_of_guests := some g } =
      match (checkFailures l ci co today g
          (hasConflict db lid (some ci) (some co) inst)).head? with
      | some e => Except.error e
      | none => Except.ok (some l))
    ∧ (ci = co → BookingSerializer.validate listings db today inst
        { check_in_date := some ci, check_out_date := some co,
          listing_id := some lid, number_of_guests := some g } =
        Except.error BookingError.invalidDateRange) := by
  have hfull := validate_full_eq listings db today inst ci co lid g
  rw [hfind] at hfull
  constructor
  · rw [hfull]
    unfold checkFailures
    by_cases h1 : co ≤ ci <;> by_cases h2 : ci < today <;>
      by_cases h3 : l.is_available = false <;>
        by_cases h4 : guestsExceed (some g) l.max_guests = true <;>
          by_cases h5 : hasConflict db lid (some ci) (some co) inst = true <;>
            simp [h1, h2, h3, h4, h5]
  · intro he
    subst he
    rw [hfull]
    simp

/-- C3 witness: an input failing both the past-check-in check and the
capacity check (today 100, range [50, 60), 9 guests against capacity 4)
is rejected with the earliest of the two errors, past-check-in. -/
theorem validate_error_order_witness :
    BookingSerializer.validate [sampleListing] [] 100 none
      { check_in_date := some 50, check_out_date := some 60,
        listing_id := some 1, number_of_guests := some 9 } =
      Except.error BookingError.pastCheckInDate :=
  (validate_error_order [sampleListing] [] 100 none 50 60 1 9
    sampleListing rfl).1.trans (by rfl)

/-- C4 counterexample: the claim says a request with zero guests is
rejected with the capacity error, but on the sample listing (capacity 4,
available, empty booking table, today 0, range [0, 3)) a zero-guest
payload passes `BookingSerializer.validate`: the Python guard
`if number_of_guests and ...` skips the check because 0 is falsy. -/
theorem guest_capacity_zero_cex :
    BookingSerializer.validate [sampleListing] [] 0 none
      { check_in_date := some 0, check_out_date := some 3,
        listing_id := some 1, number_of_guests := some 0 } =
      Except.ok (some sampleListing) := rfl

/-- C4 amended: with valid dates and an available listing, booking
validation fails with the capacity error exactly when the guest count is
nonzero and exceeds the listing capacity; when additionally no conflict
exists, it accepts exactly when the guest count is zero or within
capacity.  So a count equal to the capacity is accepted, capacity plus
one is rejected, and zero is not rejected by this check (its rejection is
left to field-level minimum validation outside this method). -/
theorem guest_capacity_check (listings : List Listing) (db : List Booking)
    (today ci co : Int) (lid g : Nat) (l : Listing)
    (hfind : findListing listings lid = some l)
    (hav : l.is_available = true) (hdate : ci < co) (htoday : today ≤ ci) :
    (BookingSerializer.validate listings db today none
        { check_in_date := some ci, check_out_date := some co,
          listing_id := some lid, number_of_guests := some g } =
      Except.error BookingError.guestCapacityExceeded ↔
        g ≠ 0 ∧ l.max_guests < g)
    ∧ (hasConflict db lid (some ci) (some co) none = false →
      (BookingSerializer.validate listings db today none
          { check_in_date := some ci, check_out_date := some co,
            listing_id := some lid, number_of_guests := some g } =
        Except.ok (some l) ↔ (g = 0 ∨ g ≤ l.max_guests))) := by
  have hfull := validate_full_eq listings db today none ci co lid g
  rw [hfind] at hfull
  have h1 : ¬ co ≤ ci := not_le.mpr hdate
  have h2 : ¬ ci < today := not_lt.mpr htoday
  have h3 : ¬ l.is_available = false := by simp [hav]
  have hval : BookingSerializer.validate listings db today none
      { check_in_date := some ci, check_out_date := some co,
        listing_id := some lid, number_of_guests := some g } =
      (if guestsExceed (some g) l.max_guests = true then
        Except.error BookingError.guestCapacityExceeded
      else if hasConflict db lid (some ci) (some co) none = true then
        Except.error BookingError.dateRangeConflict
      else Except.ok (some l)) := by
    rw [hfull]; simp [h1, h2, h3]
  have hge : guestsExceed (some g) l.max_guests = true ↔
      g ≠ 0 ∧ l.max_guests < g := by simp [guestsExceed]
  constructor
  · rw [hval]
    by_cases hx : guestsExceed (some g) l.max_guests = true
    · simp [hx, hge.mp hx]
    · have h4 : ¬ (g ≠ 0 ∧ l.max_guests < g) := fun hcon => hx (hge.mpr hcon)
      rcases Bool.eq_false_or_eq_true
          (hasConflict db lid (some ci) (some co) none) with hc | hc <;>
        simp [hx, hc, h4]
  · intro hc
    rw [hval]
    by_cases hx : guestsExceed (some g) l.max_guests = true
    · obtain ⟨hg0, hgm⟩ := hge.mp hx
      simp [hx, hg0, not_le.mpr hgm]
    · have hgood : g = 0 ∨ g ≤ l.max_guests := by
        by_cases hg0 : g = 0
        · exact Or.inl hg0
        · exact Or.inr (not_lt.mp fun hgm => hx (hge.mpr ⟨hg0, hgm⟩))
      simp [hx, hc, hgood]

/-- C4 witness: on the sample listing of capacity 4, a request for 5
guests is rejected with the capacity error, and a request for 4 guests
on an empty table is accepted. -/
theorem guest_capacity_check_witness :
    BookingSerializer.validate [sampleListing] [] 0 none
      { check_in_date := some 0, check_out_date := some 3,
        listing_id := some 1, number_of_guests := some 5 } =
      Except.error BookingError.guestCapacityExceeded ∧
    BookingSerializer.validate [sampleListing] [] 0 none
      { check_in_date := some 0, check_out_date := some 3,
        listing_id := some 1, number_of_guests := some 4 } =
      Except.ok (some sampleListing) :=
  ⟨(guest_capacity_check [sampleListing] [] 0 0 3 1 5 sampleListing rfl
      rfl (by decide) (by decide)).1.mpr (by decide),
   ((guest_capacity_check [sampleListing] [] 0 0 3 1 4 sampleListing rfl
      rfl (by decide) (by decide)).2 rfl).mpr (by decide)⟩

/-- C6 counterexample: the claim says a date-range update whose check-in
lies in the past is not rejected with the past-check-in error, but
validating an update (instance with primary key 1) with today 100 and
range [50, 60) does return exactly that error: the date checks of
`BookingSerializer.validate` run identically for creates and updates. -/
theorem past_checkin_update_cex :
    BookingSerializer.validate [sampleListing]
      [{ booking_id := 1, listing := 1, guest := 5, check_in_date := 50,
         check_out_date := 60, number_of_guests := 2,
         total_price := 100000, status := BookingStatus.pending }]
      100 (some 1)
      { check_in_date := some 50, check_out_date := some 60,
        listing_id := some 1, number_of_guests := some 2 } =
      Except.error BookingError.pastCheckInDate := rfl

/-- C6 amended: the past-check-in rule applies uniformly to creation and
to updates: whenever both dates are supplied, the range is forward
(check-in before check-out) and the check-in lies before today, booking
validation rejects with the past-check-in error regardless of whether an
instance is being updated. -/
theorem past_checkin_applies_to_updates (listings : List Listing)
    (db : List Booking) (today ci co : Int) (inst : Option Nat)
    (lid? g? : Option Nat) (hpast : ci < today) (hrange : ci < co) :
    BookingSerializer.validate listings db today inst
      { check_in_date := some ci, check_out_date := some co,
        listing_id := lid?, number_of_guests := g? } =
      Except.error BookingError.pastCheckInDate := by
  unfold BookingSerializer.validate dateError
  simp [not_le.mpr hrange, hpast]

/-- C6 witness: an update (instance key 7) with today 10 and the past
range [2, 5) is rejected with the past-check-in error. -/
theorem past_checkin_applies_to_updates_witness :
    BookingSerializer.validate [sampleListing] [] 10 (some 7)
      { check_in_date := some 2, check_out_date := some 5,
        listing_id := some 1, number_of_guests := some 2 } =
      Except.error BookingError.pastCheckInDate :=
  past_checkin_applies_to_updates [sampleListing] [] 10 2 5 (some 7)
    (some 1) (some 2) (by decide) (by decide)

/-- C7 counterexample: a review table already holds a review by reviewer 1
on listing 1 (so a second review by the same pair violates the store's
unique-together constraint), yet `ReviewSerializer.validate` accepts that
second request: the method performs no duplicate query at all (its error
type has no duplicate-review kind), so no input makes validation fail
with a duplicate-review error. -/
theorem review_duplicate_not_checked_cex :
    violatesUniqueTogether
      [{ review_id := 1, listing := 1, reviewer := 1, booking := none,
         rating := 5 }]
      { review_id := 2, listing := 1, reviewer := 1, booking := none,
        rating := 4 } = true ∧
    ReviewSerializer.validate [sampleListing] [] (some 1)
      { listing_id := some 1, booking_id := none, rating := some 4 } =
      Except.ok () :=
  ⟨rfl, rfl⟩

/-- C7 amended: duplicate prevention lives in the storage layer, not in
serializer validation: the `unique_together` constraint of `Review.Meta`
is violated by an insert exactly when some stored review already has the
same listing and reviewer — so a reviewer's second review of a listing is
rejected by the store's constraint while a first review (no stored review
with that listing and reviewer) is not. -/
theorem review_unique_together_store (reviews : List Review) (r : Review) :
    (violatesUniqueTogether reviews r = true ↔
      ∃ r0, r0 ∈ reviews ∧ r0.listing = r.listing ∧
        r0.reviewer = r.reviewer)
    ∧ ((∀ r0 ∈ reviews, r0.listing = r.listing → r0.reviewer ≠ r.reviewer) →
      violatesUniqueTogether reviews r = false) := by
  constructor
  · simp [violatesUniqueTogether, List.any_eq_true]
  · intro hfirst
    rw [Bool.eq_false_iff]
    intro hviol
    rw [violatesUniqueTogether, List.any_eq_true] at hviol
    obtain ⟨r0, hr0, hprop⟩ := hviol
    simp only [Bool.and_eq_true, decide_eq_true_eq] at hprop
    exact hfirst r0 hr0 hprop.1 hprop.2

/-- C8 counterexample: the claim says validation fails with the
invalid-rating error whenever the rating lies outside [1,5], but a rating
of 0 passes `ReviewSerializer.validate`: the Python guard
`if rating and (rating < 1 or rating > 5)` skips the range check because
0 is falsy. -/
theorem review_rating_zero_cex :
    ReviewSerializer.validate [sampleListing] [] (some 1)
      { listing_id := some 1, booking_id := none, rating := some 0 } =
      Except.ok () := rfl

/-- C8 amended: with the listing and booking resolving and an
authenticated user in context, review validation fails with the
invalid-rating error for every nonzero rating outside [1,5] (a zero
rating bypasses this object-level check and is left to field-level bounds
validation); it fails with the not-booking-owner error when the booking's
guest is not the reviewer, fails with the booking-not-completed error
when the guest matches but the status is not completed, and succeeds when
the guest matches, the status is completed and the rating is in
range. -/
theorem review_validate_checks (listings : List Listing)
    (bookings : List Booking) (u lid bid : Nat) (l : Listing) (bk : Booking)
    (hl : findListing listings lid = some l)
    (hb : findBooking bookings bid = some bk) :
    (∀ r : Int, r ≠ 0 → (r < 1 ∨ 5 < r) →
      ReviewSerializer.validate listings bookings (some u)
        { listing_id := some lid, booking_id := some bid,
          rating := some r } = Except.error ReviewError.invalidRating)
    ∧ (∀ r : Int, 1 ≤ r → r ≤ 5 → bk.guest ≠ u →
      ReviewSerializer.validate listings bookings (some u)
        { listing_id := some lid, booking_id := some bid,
          rating := some r } = Except.error ReviewError.notBookingOwner)
    ∧ (∀ r : Int, 1 ≤ r → r ≤ 5 → bk.guest = u →
        bk.status ≠ BookingStatus.completed →
      ReviewSerializer.validate listings bookings (some u)
        { listing_id := some lid, booking_id := some bid,
          rating := some r } =
        Except.error ReviewError.bookingNotCompleted)
    ∧ (∀ r : Int, 1 ≤ r → r ≤ 5 → bk.guest = u →
        bk.status = BookingStatus.completed →
      ReviewSerializer.validate listings bookings (some u)
        { listing_id := some lid, booking_id := some bid,
          rating := some r } = Except.ok ()) := by
  refine ⟨?_, ?_, ?_, ?_⟩
  · intro r hr0 hrout
    have hinv : ratingInvalid (some r) = true := by
      rcases hrout with hlt | hgt
      · simp [ratingInvalid, hr0, hlt]
      · simp [ratingInvalid, hr0, hgt]
    simp [ReviewSerializer.validate, hinv]
  · intro r hr1 hr5 hguest
    have hinv : ratingInvalid (some r) = false := by
      simp [ratingInvalid, not_lt.mpr hr1, not_lt.mpr hr5]
    simp [ReviewSerializer.validate, hinv, hl, reviewBookingCheck, hb,
      hguest]
  · intro r hr1 hr5 hguest hst
    have hinv : ratingInvalid (some r) = false := by
      simp [ratingInvalid, not_lt.mpr hr1, not_lt.mpr hr5]
    simp [ReviewSerializer.validate, hinv, hl, reviewBookingCheck, hb,
      hguest, hst]
  · intro r hr1 hr5 hguest hst
    have hinv : ratingInvalid (some r) = false := by
      simp [ratingInvalid, not_lt.mpr hr1, not_lt.mpr hr5]
    simp [ReviewSerializer.validate, hinv, hl, reviewBookingCheck, hb,
      hguest, hst]

/-- C8 witness: with a completed booking whose guest 1 is the reviewer,
ratings 6 and in-range 3 behave as the amended claim states on concrete
data: rating 6 is rejected as invalid and rating 3 is accepted. -/
theorem review_validate_checks_witness :
    ReviewSerializer.validate [sampleListing]
      [{ booking_id := 2, listing := 1, guest := 1, check_in_date := 0,
         check_out_date := 3, number_of_guests := 2, total_price := 30000,
         status := BookingStatus.completed }] (some 1)
      { listing_id := some 1, booking_id := some 2, rating := some 6 } =
      Except.error ReviewError.invalidRating ∧
    ReviewSerializer.validate [sampleListing]
      [{ booking_id := 2, listing := 1, guest := 1, check_in_date := 0,
         check_out_date := 3, number_of_guests := 2, total_price := 30000,
         status := BookingStatus.completed }] (some 1)
      { listing_id := some 1, booking_id := some 2, rating := some 3 } =
      Except.ok () :=
  ⟨(review_validate_checks [sampleListing]
      [{ booking_id := 2, listing := 1, guest := 1, check_in_date := 0,
         check_out_date := 3, number_of_guests := 2, total_price := 30000,
         status := BookingStatus.completed }] 1 1 2 sampleListing
      { booking_id := 2, listing := 1, guest := 1, check_in_date := 0,
        check_out_date := 3, number_of_guests := 2, total_price := 30000,
        status := BookingStatus.completed } rfl rfl).1 6 (by decide)
      (Or.inr (by decide)),
   (review_validate_checks [sampleListing]
      [{ booking_id := 2, listing := 1, guest := 1, check_in_date := 0,
         check_out_date := 3, number_of_guests := 2, total_price := 30000,
         status := BookingStatus.completed }] 1 1 2 sampleListing
      { booking_id := 2, listing := 1, guest := 1, check_in_date := 0,
        check_out_date := 3, number_of_guests := 2, total_price := 30000,
        status := BookingStatus.completed } rfl rfl).2.2.2 3 (by decide)
      (by decide) rfl rfl⟩

/-- C9: when no authenticated request user is in the serializer context,
the booking-ownership and booking-completed checks are silently skipped:
for every stored booking — whatever its guest and status — review
validation succeeds, provided the rating is in range and the listing and
booking resolve. -/
theorem review_skips_booking_checks_without_user (listings : List Listing)
    (bookings : List Booking) (lid bid : Nat) (r : Int) (l : Listing)
    (bk : Booking) (hl : findListing listings lid = some l)
    (hb : findBooking bookings bid = some bk)
    (hr1 : 1 ≤ r) (hr5 : r ≤ 5) :
    ReviewSerializer.validate listings bookings none
      { listing_id := some lid, booking_id := some bid,
        rating := some r } = Except.ok () := by
  have hinv : ratingInvalid (some r) = false := by
    simp [ratingInvalid, not_lt.mpr hr1, not_lt.mpr hr5]
  simp [ReviewSerializer.validate, hinv, hl, reviewBookingCheck, hb]

/-- C9 witness: with no request user, a review referencing a pending
booking of a different guest (guest 42) is nevertheless accepted. -/
theorem review_skips_booking_checks_without_user_witness :
    ReviewSerializer.validate [sampleListing]
      [{ booking_id := 3, listing := 1, guest := 42, check_in_date := 0,
         check_out_date := 3, number_of_guests := 2, total_price := 30000,
         status := BookingStatus.pending }] none
      { listing_id := some 1, booking_id := some 3, rating := some 4 } =
      Except.ok () :=
  review_skips_booking_checks_without_user [sampleListing]
    [{ booking_id := 3, listing := 1, guest := 42, check_in_date := 0,
       check_out_date := 3, number_of_guests := 2, total_price := 30000,
       status := BookingStatus.pending }] 1 3 4 sampleListing
    { booking_id := 3, listing := 1, guest := 42, check_in_date := 0,
      check_out_date := 3, number_of_guests := 2, total_price := 30000,
      status := BookingStatus.pending } rfl rfl (by decide) (by decide)

end AlxTravel
